import Mathlib

/-!
Verification of the Auto-Analyst backend's tabular pipeline.

We shallowly embed the pandas-level data model used by the backend
(`app/ml/task_detection.py`, `app/eda/profiler.py`,
`app/ml/preprocessing.py`, `app/ml/modeling.py`): a series is a dtype tag
plus a list of cells, numbers are exact rationals, and external library
calls that parse strings (pd.to_datetime, pd.to_numeric) are oracles
passed as function parameters.
-/

namespace AutoAnalyst

/-- A pandas cell: missing (NaN/None), a number, a string, a boolean, or a
timestamp (datetime64 value, as an integer). -/
inductive Cell where
  | na : Cell
  | num (q : ℚ) : Cell
  | str (s : String) : Cell
  | boolC (b : Bool) : Cell
  | time (t : ℤ) : Cell
  deriving DecidableEq, Repr

/-- The dtype tag of a pandas Series, as distinguished by the
`pd.api.types` predicates the backend calls. -/
inductive Dtype where
  | boolD | datetimeD | objectD | numericD | categoricalD | otherD
  deriving DecidableEq, Repr

/-- A pandas Series: a dtype tag and the column's cells. -/
structure Series where
  dtype : Dtype
  data : List Cell
  deriving DecidableEq, Repr

/-- A pandas DataFrame: named columns in order. -/
abbrev DataFrame := List (String × Series)

/-- pd.api.types.is_bool_dtype. -/
def is_bool_dtype (s : Series) : Bool := s.dtype = Dtype.boolD

/-- pd.api.types.is_datetime64_any_dtype. -/
def is_datetime_dtype (s : Series) : Bool := s.dtype = Dtype.datetimeD

/-- pd.api.types.is_object_dtype. -/
def is_object_dtype (s : Series) : Bool := s.dtype = Dtype.objectD

/-- pd.api.types.is_numeric_dtype; in pandas this also holds for bool
dtype. -/
def is_numeric_dtype (s : Series) : Bool :=
  s.dtype = Dtype.numericD || s.dtype = Dtype.boolD

/-- pd.api.types.is_categorical_dtype. -/
def is_categorical_dtype (s : Series) : Bool := s.dtype = Dtype.categoricalD

/-- Series.dropna: the non-null cells, in order. -/
def dropNA (l : List Cell) : List Cell := l.filter (fun c => c ≠ Cell.na)

/-- The distinct elements of a list in first-encountered order (the key
order produced by the pandas hash tables behind nunique/value_counts). -/
def uniqueOrder {α : Type} [DecidableEq α] : List α → List α
  | [] => []
  | a :: l => a :: (uniqueOrder l).filter (fun x => x ≠ a)

/-- Series.nunique over an already-dropna'd list. -/
def nuniqueL {α : Type} [DecidableEq α] (l : List α) : Nat :=
  (uniqueOrder l).length

/-- astype(str) on one cell. -/
def cellStr : Cell → String
  | Cell.na => "nan"
  | Cell.num q => toString q
  | Cell.str s => s
  | Cell.boolC b => if b then "True" else "False"
  | Cell.time t => toString t

/-- astype(int) on one float value: truncation toward zero, as a rational. -/
def truncQ (q : ℚ) : ℚ := if 0 ≤ q then ((⌊q⌋ : ℤ) : ℚ) else ((⌈q⌉ : ℤ) : ℚ)

/-- One element of np.allclose(s, s.astype(int), equal_nan=True):
|a - int(a)| ≤ atol + rtol * |int(a)| with atol = 1e-8, rtol = 1e-5.
Booleans cast exactly; NaN entries compare equal under equal_nan. -/
def intLike : Cell → Bool
  | Cell.na => true
  | Cell.num q => decide (|q - truncQ q| ≤ 1/100000000 + 1/100000 * |truncQ q|)
  | Cell.boolC _ => true
  | Cell.str _ => false
  | Cell.time _ => false

/-- app/ml/task_detection.py detect_task_type. -/
def detect_task_type (s : Series) : String :=
  let d := dropNA s.data
  if d = [] then "regression"
  else if is_numeric_dtype s then
    let unique_vals := nuniqueL d
    let n := d.length
    let unique_ratio : ℚ := if n > 0 then (unique_vals : ℚ) / (n : ℚ) else 0
    let all_int_like := d.all intLike
    if all_int_like ∧ unique_vals ≤ 20 ∧ unique_ratio < 1/2 then "classification"
    else "regression"
  else "classification"

/-- The datetime probe of app/eda/profiler.py infer_column_type for
object-dtype columns: take the first 50 non-null values stringified, count
how many parse as dates (the pd.to_datetime oracle `pdate`), and test
date_parse_success / len(sample) > 0.7 on a non-empty sample. -/
def objDatetimeLike (pdate : String → Bool) (s : Series) : Bool :=
  let sample := ((dropNA s.data).map cellStr).take 50
  let date_parse_success := (sample.filter pdate).length
  decide (sample.length > 0 ∧
    (date_parse_success : ℚ) / (sample.length : ℚ) > 7/10)

/-- app/eda/profiler.py infer_column_type.  `pdate` is the
pd.to_datetime success oracle. -/
def infer_column_type (pdate : String → Bool) (s : Series) : String :=
  if is_bool_dtype s then "boolean"
  else if is_datetime_dtype s then "datetime"
  else if is_object_dtype s && objDatetimeLike pdate s then "datetime"
  else if is_numeric_dtype s then
    let unique := nuniqueL (dropNA s.data)
    let n := (dropNA s.data).length
    let unique_ratio : ℚ := if n > 0 then (unique : ℚ) / (n : ℚ) else 0
    if unique > 0 ∧ unique_ratio > 9/10 then "id"
    else if unique ≤ 20 then "categorical"
    else "numeric"
  else if is_categorical_dtype s || is_object_dtype s then
    let sample := (dropNA s.data).map cellStr
    if sample = [] then "categorical"
    else
      let avg_len : ℚ := ((sample.map String.length).sum : ℚ) / (sample.length : ℚ)
      let unique := nuniqueL sample
      let n := sample.length
      let unique_ratio : ℚ := if n > 0 then (unique : ℚ) / (n : ℚ) else 0
      if avg_len > 30 ∧ unique_ratio > 1/2 then "text"
      else "categorical"
  else "unknown"

/-- Insert a (value, count) pair into a count-descending list, walking past
entries of strictly larger count.  Used from the right end of the input
(foldr), every entry already placed comes later in the input, so a tie goes
to the entry being inserted: the stable order of pandas value_counts. -/
def insertDesc {α : Type} (p : α × Nat) : List (α × Nat) → List (α × Nat)
  | [] => [p]
  | q :: l => if p.2 < q.2 then q :: insertDesc p l else p :: q :: l

/-- Stable sort by descending count. -/
def sortDescCount {α : Type} (l : List (α × Nat)) : List (α × Nat) :=
  l.foldr insertDesc []

/-- pandas Series.value_counts(dropna=True) over an already-dropna'd cell
list: the distinct values (first-encountered order) with their occurrence
counts, stably sorted by descending count. -/
def value_counts (l : List Cell) : List (Cell × Nat) :=
  sortDescCount ((uniqueOrder l).map (fun v => (v, l.count v)))

/-- The result of app/eda/profiler.py categorical_summary. -/
structure CatSummary where
  top_values : List String
  top_counts : List Nat
  unique : Nat
  deriving DecidableEq, Repr

/-- app/eda/profiler.py categorical_summary (the source's top_n defaults
to 10 at every call site). -/
def categorical_summary (top_n : Nat) (s : Series) : CatSummary :=
  let vc := (value_counts (dropNA s.data)).take top_n
  { top_values := vc.map (fun p => cellStr p.1)
    top_counts := vc.map (fun p => p.2)
    unique := nuniqueL (dropNA s.data) }

/-- Index of the first occurrence of a value in a list. -/
def firstIdx {α : Type} [DecidableEq α] (l : List α) (a : α) : Nat :=
  l.findIdx (fun x => x = a)

/-- The result of app/eda/profiler.py numeric_summary.  The source's
"std" key is omitted (a square root is not rational-valued); every other
key of the dict is modelled: count, mean, min, quartiles, max, iqr,
outlier_count.  NaN-valued entries are `none`. -/
structure NumericSummary where
  count : Nat
  mean : Option ℚ
  minV : Option ℚ
  q1 : Option ℚ
  median : Option ℚ
  q3 : Option ℚ
  maxV : Option ℚ
  iqr : Option ℚ
  outlier_count : Nat
  deriving DecidableEq, Repr

/-- Ascending insertion sort on rationals, used for quantiles. -/
def insertAsc (x : ℚ) : List ℚ → List ℚ
  | [] => [x]
  | y :: l => if y ≤ x then y :: insertAsc x l else x :: y :: l

/-- Sort a list of rationals ascending. -/
def sortAsc (l : List ℚ) : List ℚ := l.foldr insertAsc []

/-- numpy linear-interpolation quantile on a sorted list: position
h = p * (n - 1), value x_i + (h - i) * (x_(i+1) - x_i). -/
def quantileSorted (xs : List ℚ) (p : ℚ) : Option ℚ :=
  match xs with
  | [] => none
  | x :: _ =>
    let h := p * ((xs.length : ℚ) - 1)
    let i := (⌊h⌋).toNat
    let x0 := xs.getD i x
    let x1 := xs.getD (i + 1) x0
    some (x0 + (h - (i : ℚ)) * (x1 - x0))

/-- The numeric values of a coerced column (describe skips NaN). -/
def cellNums (l : List Cell) : List ℚ :=
  l.filterMap (fun c => match c with | Cell.num q => some q | _ => none)

/-- app/eda/profiler.py numeric_summary over a pd.to_numeric-coerced
column. -/
def numeric_summary (l : List Cell) : NumericSummary :=
  let qs := cellNums l
  let sorted := sortAsc qs
  let count := qs.length
  let mean := if qs.length > 0 then some (qs.sum / (qs.length : ℚ)) else none
  let minV := sorted.head?
  let maxV := sorted.getLast?
  let q1 := quantileSorted sorted (1/4)
  let median := quantileSorted sorted (1/2)
  let q3 := quantileSorted sorted (3/4)
  match q1, q3 with
  | some a, some b =>
    let iqr := b - a
    let lower := a - 3/2 * iqr
    let upper := b + 3/2 * iqr
    { count, mean, minV, q1, median, q3, maxV, iqr := some iqr,
      outlier_count :=
        (qs.filter (fun x => decide (x < lower) || decide (x > upper))).length }
  | _, _ =>
    { count, mean, minV, q1, median, q3, maxV, iqr := none,
      outlier_count := 0 }

/-- The datetime summary of app/eda/profiler.py profile_dataset. -/
structure DtSummary where
  minT : Option ℤ
  maxT : Option ℤ
  deriving DecidableEq, Repr

/-- The datetime branch of profile_dataset: pd.to_datetime(s,
errors="coerce") through the oracle `pdt`, then min/max of the parsed
timestamps (the source renders them as ISO strings). -/
def datetime_summary (pdt : Cell → Option ℤ) (s : Series) : DtSummary :=
  let parsed := s.data.filterMap pdt
  { minT := match parsed with | [] => none | x :: t => some (t.foldl min x)
    maxT := match parsed with | [] => none | x :: t => some (t.foldl max x) }

/-- pd.to_numeric(·, errors="coerce") on one cell; `pnum` is the numeric
string-parsing oracle.  Unparsable strings become missing. -/
def toNumericCell (pnum : String → Option ℚ) : Cell → Cell
  | Cell.na => Cell.na
  | Cell.num q => Cell.num q
  | Cell.boolC b => Cell.num (if b then 1 else 0)
  | Cell.str t =>
    match pnum t with
    | some q => Cell.num q
    | none => Cell.na
  | Cell.time t => Cell.num (t : ℚ)

/-- pd.to_numeric(series, errors="coerce"). -/
def to_numeric (pnum : String → Option ℚ) (s : Series) : Series :=
  ⟨Dtype.numericD, s.data.map (toNumericCell pnum)⟩

/-- One column's entry of the profile produced by profile_dataset. -/
structure ColInfo where
  name : String
  inferred_type : String
  effective_type : String
  overridden_type : Option String
  missing_count : Nat
  missing_pct : ℚ
  distinct_count : Nat
  numeric_summary : Option NumericSummary
  categorical_summary : Option CatSummary
  datetime_summary : Option DtSummary
  plot_suggested : Bool
  deriving DecidableEq, Repr

/-- The per-column loop body of app/eda/profiler.py profile_dataset;
`ov` is overrides.get(col) (Python `override or inferred` treats the
empty string as no override). -/
def profileColumn (pdate : String → Bool) (pnum : String → Option ℚ)
    (pdt : Cell → Option ℤ) (ov : Option String) (name : String)
    (s : Series) : ColInfo :=
  let inferred := infer_column_type pdate s
  let col_type := match ov with
    | some o => if o = "" then inferred else o
    | none => inferred
  let missing := (s.data.filter (fun c => c = Cell.na)).length
  { name
    inferred_type := inferred
    effective_type := col_type
    overridden_type := ov
    missing_count := missing
    missing_pct := if s.data.length > 0
      then (missing : ℚ) / (s.data.length : ℚ) * 100 else 0
    distinct_count := nuniqueL (dropNA s.data)
    numeric_summary := if col_type = "numeric"
      then some (numeric_summary ((to_numeric pnum s).data)) else none
    categorical_summary := if col_type = "categorical" ∨ col_type = "boolean"
      then some (categorical_summary 10 s) else none
    datetime_summary := if col_type = "datetime"
      then some (datetime_summary pdt s) else none
    plot_suggested := !(col_type == "id" || col_type == "text") }

/-- The dataset-level profile. -/
structure Profile where
  n_rows : Nat
  n_cols : Nat
  columns : List (String × ColInfo)
  rows_with_missing : Nat
  missing_by_column : List (String × Nat)
  deriving Repr

/-- app/eda/profiler.py profile_dataset; an absent overrides dict is the
empty association list. -/
def profile_dataset (pdate : String → Bool) (pnum : String → Option ℚ)
    (pdt : Cell → Option ℤ) (df : DataFrame)
    (overrides : List (String × String)) : Profile :=
  let n_rows := match df with | [] => 0 | p :: _ => p.2.data.length
  { n_rows
    n_cols := df.length
    columns := df.map (fun p =>
      (p.1, profileColumn pdate pnum pdt (List.lookup p.1 overrides) p.1 p.2))
    rows_with_missing := ((List.range n_rows).filter (fun i =>
      df.any (fun p => p.2.data.getD i Cell.na == Cell.na))).length
    missing_by_column := df.map (fun p =>
      (p.1, (p.2.data.filter (fun c => c = Cell.na)).length)) }

/-- The modeling role a feature column resolves to in
app/ml/preprocessing.py build_preprocessor. -/
inductive Role where
  | numericR | categoricalR | excludedR
  deriving DecidableEq, Repr

/-- The column names of a frame, in order. -/
def colNames (df : DataFrame) : List String := df.map (fun p => p.1)

/-- pd.api.types.is_numeric_dtype(df[col]). -/
def isNumericColD (df : DataFrame) (col : String) : Bool :=
  match List.lookup col df with
  | some s => is_numeric_dtype s
  | none => false

/-- The if/elif chain of build_preprocessor's per-column loop: override
"numeric" is numeric, "categorical"/"boolean" categorical,
"id"/"text"/"datetime" excluded, anything else (including a malformed
override) falls back to the storage dtype. -/
def roleOf (df : DataFrame) (overrides : List (String × String))
    (col : String) : Role :=
  let override := List.lookup col overrides
  if override = some "numeric" then Role.numericR
  else if override = some "categorical" ∨ override = some "boolean" then
    Role.categoricalR
  else if override = some "id" ∨ override = some "text" ∨
      override = some "datetime" then Role.excludedR
  else if isNumericColD df col then Role.numericR
  else Role.categoricalR

/-- app/ml/preprocessing.py build_preprocessor (the pure data part: the
returned feature frame X, target y, and the numeric/categorical feature
lists handed to the ColumnTransformer). -/
def build_preprocessor (pnum : String → Option ℚ) (df : DataFrame)
    (target_col : String) (overrides : List (String × String)) :
    Except String (DataFrame × Series × List String × List String) :=
  if target_col ∈ colNames df then
    let y := (List.lookup target_col df).getD ⟨Dtype.otherD, []⟩
    let X := df.filter (fun p => p.1 ≠ target_col)
    let feature_cols := (colNames df).filter (fun c => c ≠ target_col)
    let numeric_features := feature_cols.filter
      (fun c => roleOf df overrides c == Role.numericR)
    let categorical_features := feature_cols.filter
      (fun c => roleOf df overrides c == Role.categoricalR)
    let Xc := X.map (fun p =>
      if p.1 ∈ numeric_features then (p.1, to_numeric pnum p.2) else p)
    Except.ok (Xc, y, numeric_features, categorical_features)
  else
    Except.error ("Target column " ++ target_col ++ " not in dataframe.")

/-- Drop one column by name (df.drop(columns=[target])). -/
def dropCol (df : DataFrame) (t : String) : DataFrame :=
  df.filter (fun p => p.1 ≠ t)

/-- In-place column assignment on a frame (X[col] = ...). -/
def setCol (df : DataFrame) (c : String) (s : Series) : DataFrame :=
  df.map (fun p => if p.1 = c then (p.1, s) else p)

/-- A heap of pandas DataFrame objects: references are indices. -/
structure Heap where
  frames : List DataFrame
  deriving Repr

/-- Allocate a fresh frame object, returning its reference. -/
def alloc (h : Heap) (d : DataFrame) : Heap × Nat :=
  (⟨h.frames ++ [d]⟩, h.frames.length)

/-- Dereference a frame. -/
def readF (h : Heap) (r : Nat) : DataFrame := h.frames.getD r []

/-- Mutate one column of the frame object behind a reference. -/
def writeColH (h : Heap) (r : Nat) (c : String) (s : Series) : Heap :=
  ⟨h.frames.set r (setCol (readF h r) c s)⟩

/-- build_preprocessor with the object graph explicit: the caller's frame
sits behind reference `r`; `df.drop(columns=[target])` allocates a new
frame, `.copy()` allocates another, and the numeric coercion loop
`X[col] = pd.to_numeric(X[col], errors="coerce")` mutates only the copy. -/
def build_preprocessor_st (pnum : String → Option ℚ) (h : Heap) (r : Nat)
    (target_col : String) (overrides : List (String × String)) :
    Except String (Heap × Nat × Series × List String × List String) :=
  let df := readF h r
  if target_col ∈ colNames df then
    let y := (List.lookup target_col df).getD ⟨Dtype.otherD, []⟩
    let hr1 := alloc h (dropCol df target_col)
    let hr2 := alloc hr1.1 (readF hr1.1 hr1.2)
    let feature_cols := (colNames df).filter (fun c => c ≠ target_col)
    let numeric_features := feature_cols.filter
      (fun c => roleOf df overrides c == Role.numericR)
    let categorical_features := feature_cols.filter
      (fun c => roleOf df overrides c == Role.categoricalR)
    let h3 := numeric_features.foldl (fun hh c =>
      writeColH hh hr2.2 c
        (to_numeric pnum ((List.lookup c (readF hh hr2.2)).getD
          ⟨Dtype.otherD, []⟩))) hr2.1
    Except.ok (h3, hr2.2, y, numeric_features, categorical_features)
  else
    Except.error ("Target column " ++ target_col ++ " not in dataframe.")

/-- The heap after a build_preprocessor_st call (unchanged on error). -/
def heapAfter (pnum : String → Option ℚ) (h : Heap) (r : Nat)
    (target_col : String) (overrides : List (String × String)) : Heap :=
  match build_preprocessor_st pnum h r target_col overrides with
  | Except.ok res => res.1
  | Except.error _ => h

/-- The candidate-selection loop state of app/ml/modeling.py
run_baseline_models: fold the (name, score) roster left to right, adopting
a candidate only on a strictly greater score. -/
def selectLoop : List (String × ℚ) → Option String → ℚ → Option String × ℚ
  | [], best, best_score => (best, best_score)
  | (name, score) :: rest, best, best_score =>
    if score > best_score then selectLoop rest (some name) score
    else selectLoop rest best best_score

/-- The per-candidate score of run_baseline_models: classification uses
metrics.get("f1_macro", metrics.get("accuracy", 0.0)); regression uses
-metrics["rmse"] (evaluate_regression always supplies "rmse"; a missing
key is modelled as 0). -/
def candScore (task_type : String) (metrics : List (String × ℚ)) : ℚ :=
  if task_type = "classification" then
    (List.lookup "f1_macro" metrics).getD
      ((List.lookup "accuracy" metrics).getD 0)
  else
    -((List.lookup "rmse" metrics).getD 0)

/-- The model-selection core of run_baseline_models: score every fitted
candidate (fitting and predicting are the upstream oracle producing each
candidate's metrics) and pick the best, starting from best_score = -1e9;
if no candidate ever exceeds it the source raises RuntimeError. -/
def run_model_selection (task_type : String)
    (cands : List (String × List (String × ℚ))) : Except String String :=
  let scored := cands.map (fun p => (p.1, candScore task_type p.2))
  match (selectLoop scored none (-1000000000)).1 with
  | none => Except.error "No best model was selected. This should not happen."
  | some n => Except.ok n

section ClaimProofs

attribute [local semireducible] Rat.mul Rat.inv Rat.add Rat.sub

/-- Claim C1 (amended): for a target with non-empty non-null values,
if the dtype is numeric then detect_task_type returns "classification"
iff all non-null values are integral within floating tolerance AND the
distinct non-null count is at most 20 AND the distinct/count ratio is
strictly below 1/2; a non-numeric target always yields "classification". -/
theorem detect_task_type_spec (s : Series) (hne : dropNA s.data ≠ []) :
    (is_numeric_dtype s = true →
      (detect_task_type s = "classification" ↔
        ((dropNA s.data).all intLike = true ∧
          nuniqueL (dropNA s.data) ≤ 20 ∧
          (nuniqueL (dropNA s.data) : ℚ) / ((dropNA s.data).length : ℚ) < 1/2))) ∧
    (is_numeric_dtype s = false → detect_task_type s = "classification") := by
  have hn : 0 < (dropNA s.data).length := List.length_pos.mpr hne
  constructor
  · intro hnum
    rw [detect_task_type]
    simp only [if_neg hne, hnum, if_true, if_pos hn]
    by_cases hc : (dropNA s.data).all intLike = true ∧
        nuniqueL (dropNA s.data) ≤ 20 ∧
        (nuniqueL (dropNA s.data) : ℚ) / ((dropNA s.data).length : ℚ) < 1/2
    · rw [if_pos hc]
      exact iff_of_true rfl hc
    · rw [if_neg hc]
      exact iff_of_false (by decide) hc
  · intro hnum
    rw [detect_task_type]
    simp only [if_neg hne, hnum]
    simp

/-- Witness for detect_task_type_spec at a concrete numeric series with
distinct/count ratio 2/5. -/
theorem detect_task_type_spec_witness :
    detect_task_type ⟨Dtype.numericD,
      [Cell.num 0, Cell.num 0, Cell.num 1, Cell.num 1, Cell.num 0]⟩ =
      "classification" :=
  ((detect_task_type_spec
      ⟨Dtype.numericD,
        [Cell.num 0, Cell.num 0, Cell.num 1, Cell.num 1, Cell.num 0]⟩
      (by decide)).1 (by decide)).mpr (by decide)

/-- Counterexample to claim C1 as stated: a numeric target whose non-null
values are all integral with distinct count 2 ≤ 20, yet detect_task_type
returns "regression" because the distinct/count ratio 1 is not below 1/2. -/
theorem detect_task_type_claim_counterexample :
    is_numeric_dtype ⟨Dtype.numericD, [Cell.num 1, Cell.num 2]⟩ = true ∧
    dropNA [Cell.num 1, Cell.num 2] ≠ [] ∧
    (dropNA [Cell.num 1, Cell.num 2]).all intLike = true ∧
    nuniqueL (dropNA [Cell.num 1, Cell.num 2]) ≤ 20 ∧
    detect_task_type ⟨Dtype.numericD, [Cell.num 1, Cell.num 2]⟩ =
      "regression" := by
  decide

/-- uniqueOrder only keeps elements of the list. -/
theorem uniqueOrder_sublist {α : Type} [DecidableEq α] (l : List α) :
    (uniqueOrder l).Sublist l := by
  induction l with
  | nil => simp [uniqueOrder]
  | cons a t ih =>
    rw [uniqueOrder]
    exact ((List.filter_sublist _).trans ih).cons₂ a

/-- The distinct count never exceeds the length. -/
theorem nuniqueL_le_length {α : Type} [DecidableEq α] (l : List α) :
    nuniqueL l ≤ l.length :=
  (uniqueOrder_sublist l).length_le

/-- A non-empty list has a positive distinct count. -/
theorem nuniqueL_pos {α : Type} [DecidableEq α] (l : List α) (h : l ≠ []) :
    0 < nuniqueL l := by
  cases l with
  | nil => exact absurd rfl h
  | cons a t => simp [nuniqueL, uniqueOrder]

/-- Claim C2 (amended): for an object-dtype column with at least one
non-null value, if strictly more than 70 percent of the first 50 non-null
values (stringified, in original order) parse as dates, infer_column_type
returns "datetime". -/
theorem infer_column_type_datetime_spec (pdate : String → Bool) (s : Series)
    (hobj : is_object_dtype s = true)
    (hne : dropNA s.data ≠ [])
    (hgt : (((((dropNA s.data).map cellStr).take 50).filter pdate).length : ℚ) /
        (((((dropNA s.data).map cellStr).take 50)).length : ℚ) > 7/10) :
    infer_column_type pdate s = "datetime" := by
  have hdt : s.dtype = Dtype.objectD := by
    simpa [is_object_dtype] using hobj
  have h1 : is_bool_dtype s = false := by simp [is_bool_dtype, hdt]
  have h2 : is_datetime_dtype s = false := by simp [is_datetime_dtype, hdt]
  have hsamp : 0 < (((dropNA s.data).map cellStr).take 50).length := by
    rw [List.length_take, List.length_map]
    exact lt_min (by norm_num) (List.length_pos.mpr hne)
  have h3 : objDatetimeLike pdate s = true := by
    rw [objDatetimeLike]
    simp only [decide_eq_true_eq]
    exact ⟨hsamp, hgt⟩
  rw [infer_column_type]
  simp [h1, h2, hobj, h3]

/-- Witness for infer_column_type_datetime_spec: four of five non-null
strings parse (ratio 4/5 > 7/10). -/
theorem infer_column_type_datetime_spec_witness :
    infer_column_type (fun t => t = "d")
      ⟨Dtype.objectD, [Cell.str "d", Cell.str "d", Cell.str "d",
        Cell.str "d", Cell.na, Cell.str "x"]⟩ = "datetime" :=
  infer_column_type_datetime_spec (fun t => t = "d")
    ⟨Dtype.objectD, [Cell.str "d", Cell.str "d", Cell.str "d",
      Cell.str "d", Cell.na, Cell.str "x"]⟩
    (by decide) (by decide) (by decide)

/-- Counterexample to claim C2 as stated: an object column where exactly
70 percent (7 of 10) of the sampled values parse as dates; the claim
demands "datetime" but the code requires a strict majority beyond 0.7 and
returns "categorical". -/
theorem infer_column_type_datetime_claim_counterexample :
    is_object_dtype ⟨Dtype.objectD, [Cell.str "d", Cell.str "d", Cell.str "d",
        Cell.str "d", Cell.str "d", Cell.str "d", Cell.str "d",
        Cell.str "x", Cell.str "x", Cell.str "x"]⟩ = true ∧
    dropNA [Cell.str "d", Cell.str "d", Cell.str "d",
        Cell.str "d", Cell.str "d", Cell.str "d", Cell.str "d",
        Cell.str "x", Cell.str "x", Cell.str "x"] ≠ [] ∧
    ((((((dropNA [Cell.str "d", Cell.str "d", Cell.str "d",
        Cell.str "d", Cell.str "d", Cell.str "d", Cell.str "d",
        Cell.str "x", Cell.str "x", Cell.str "x"]).map cellStr).take 50).filter
          (fun t => t = "d")).length : ℚ) /
        (((((dropNA [Cell.str "d", Cell.str "d", Cell.str "d",
        Cell.str "d", Cell.str "d", Cell.str "d", Cell.str "d",
        Cell.str "x", Cell.str "x", Cell.str "x"]).map cellStr).take 50)).length : ℚ)
        ≥ 7/10) ∧
    infer_column_type (fun t => t = "d")
      ⟨Dtype.objectD, [Cell.str "d", Cell.str "d", Cell.str "d",
        Cell.str "d", Cell.str "d", Cell.str "d", Cell.str "d",
        Cell.str "x", Cell.str "x", Cell.str "x"]⟩ = "categorical" := by
  decide

/-- Claim C3: for a numeric-dtype column, infer_column_type returns "id"
when the distinct/non-null ratio (0 when no non-null values) exceeds 9/10,
otherwise "categorical" when the distinct count is at most 20, otherwise
"numeric"; and any numeric column whose distinct/total ratio exceeds 9/10
with more than 10 rows is typed "id". -/
theorem infer_column_type_numeric_spec (pdate : String → Bool) (s : Series)
    (hnum : s.dtype = Dtype.numericD) :
    (infer_column_type pdate s =
      (if (if (dropNA s.data).length > 0
            then (nuniqueL (dropNA s.data) : ℚ) / ((dropNA s.data).length : ℚ)
            else 0) > 9/10
       then "id"
       else if nuniqueL (dropNA s.data) ≤ 20 then "categorical"
       else "numeric")) ∧
    ((nuniqueL (dropNA s.data) : ℚ) / (s.data.length : ℚ) > 9/10 →
      s.data.length > 10 → infer_column_type pdate s = "id") := by
  have h1 : is_bool_dtype s = false := by simp [is_bool_dtype, hnum]
  have h2 : is_datetime_dtype s = false := by simp [is_datetime_dtype, hnum]
  have h3 : is_object_dtype s = false := by simp [is_object_dtype, hnum]
  have h4 : is_numeric_dtype s = true := by simp [is_numeric_dtype, hnum]
  have hcode : infer_column_type pdate s =
      (if (if (dropNA s.data).length > 0
            then (nuniqueL (dropNA s.data) : ℚ) / ((dropNA s.data).length : ℚ)
            else 0) > 9/10
       then "id"
       else if nuniqueL (dropNA s.data) ≤ 20 then "categorical"
       else "numeric") := by
    rw [infer_column_type]
    simp only [h1, h2, h3, h4, Bool.false_and, Bool.false_eq_true, if_false,
      if_true]
    rcases Nat.eq_zero_or_pos (dropNA s.data).length with hz | hp
    · have hd : dropNA s.data = [] := List.length_eq_zero.mp hz
      simp [hd, nuniqueL, uniqueOrder]
      norm_num
    · have hu : 0 < nuniqueL (dropNA s.data) :=
        nuniqueL_pos _ (fun he => by simp [he] at hp)
      rw [if_pos hp]
      by_cases hr : (nuniqueL (dropNA s.data) : ℚ) /
          ((dropNA s.data).length : ℚ) > 9/10
      · rw [if_pos ⟨hu, hr⟩, if_pos hr]
      · rw [if_neg hr, if_neg (fun hc => hr hc.2)]
  refine ⟨hcode, ?_⟩
  intro htot hlen
  have hu : 0 < nuniqueL (dropNA s.data) := by
    by_contra h
    have h0 : nuniqueL (dropNA s.data) = 0 := Nat.eq_zero_of_not_pos h
    rw [h0] at htot
    norm_num at htot
  have hn : 0 < (dropNA s.data).length := lt_of_lt_of_le hu (nuniqueL_le_length _)
  have hle : ((dropNA s.data).length : ℚ) ≤ (s.data.length : ℚ) := by
    exact_mod_cast List.length_filter_le _ _
  have hr : (nuniqueL (dropNA s.data) : ℚ) /
      ((dropNA s.data).length : ℚ) > 9/10 := by
    refine lt_of_lt_of_le htot ?_
    have hn0 : (0:ℚ) < ((dropNA s.data).length : ℚ) := by exact_mod_cast hn
    exact div_le_div_of_nonneg_left (Nat.cast_nonneg _) hn0 hle
  rw [hcode, if_pos hn, if_pos hr]

/-- Witness for infer_column_type_numeric_spec: eleven distinct values in
eleven rows give ratio 1 > 9/10, hence "id". -/
theorem infer_column_type_numeric_spec_witness :
    infer_column_type (fun _ => false)
      ⟨Dtype.numericD, [Cell.num 0, Cell.num 1, Cell.num 2, Cell.num 3,
        Cell.num 4, Cell.num 5, Cell.num 6, Cell.num 7, Cell.num 8,
        Cell.num 9, Cell.num 10]⟩ = "id" :=
  (infer_column_type_numeric_spec (fun _ => false)
    ⟨Dtype.numericD, [Cell.num 0, Cell.num 1, Cell.num 2, Cell.num 3,
      Cell.num 4, Cell.num 5, Cell.num 6, Cell.num 7, Cell.num 8,
      Cell.num 9, Cell.num 10]⟩ rfl).2 (by decide) (by decide)

/-- Membership in insertDesc. -/
theorem mem_insertDesc {α : Type} (p a : α × Nat) (l : List (α × Nat)) :
    a ∈ insertDesc p l ↔ a = p ∨ a ∈ l := by
  induction l with
  | nil => simp [insertDesc]
  | cons q t ih =>
    rw [insertDesc]
    split
    · simp only [List.mem_cons, ih]
      tauto
    · simp only [List.mem_cons]

/-- insertDesc permutes consing. -/
theorem insertDesc_perm {α : Type} (p : α × Nat) (l : List (α × Nat)) :
    (insertDesc p l).Perm (p :: l) := by
  induction l with
  | nil => simp [insertDesc]
  | cons q t ih =>
    rw [insertDesc]
    split
    · exact (ih.cons q).trans (List.Perm.swap p q t)
    · exact List.Perm.refl _

/-- sortDescCount permutes its input. -/
theorem sortDescCount_perm {α : Type} (l : List (α × Nat)) :
    (sortDescCount l).Perm l := by
  induction l with
  | nil => exact List.Perm.refl _
  | cons p t ih =>
    show (insertDesc p (sortDescCount t)).Perm _
    exact (insertDesc_perm p _).trans (ih.cons p)

/-- insertDesc preserves descending-count sortedness. -/
theorem pairwise_insertDesc {α : Type} (p : α × Nat) (l : List (α × Nat))
    (h : l.Pairwise (fun a b => b.2 ≤ a.2)) :
    (insertDesc p l).Pairwise (fun a b => b.2 ≤ a.2) := by
  induction l with
  | nil => simp [insertDesc]
  | cons q t ih =>
    rw [insertDesc]
    rcases List.pairwise_cons.mp h with ⟨hq, ht⟩
    split
    · rename_i hlt
      refine List.pairwise_cons.mpr ⟨?_, ih ht⟩
      intro a ha
      rcases (mem_insertDesc p a t).mp ha with rfl | hat
      · exact le_of_lt hlt
      · exact hq a hat
    · rename_i hge
      push_neg at hge
      refine List.pairwise_cons.mpr ⟨?_, h⟩
      intro a ha
      rcases List.mem_cons.mp ha with rfl | hat
      · exact hge
      · exact le_trans (hq a hat) hge

/-- sortDescCount sorts by descending count. -/
theorem pairwise_sortDescCount {α : Type} (l : List (α × Nat)) :
    (sortDescCount l).Pairwise (fun a b => b.2 ≤ a.2) := by
  induction l with
  | nil => simp [sortDescCount]
  | cons p t ih => exact pairwise_insertDesc p _ ih

/-- Filtering on a count different from the inserted pair's ignores it. -/
theorem filter_insertDesc_ne {α : Type} (p : α × Nat) (l : List (α × Nat))
    (k : Nat) (hk : p.2 ≠ k) :
    (insertDesc p l).filter (fun q => q.2 == k) =
      l.filter (fun q => q.2 == k) := by
  induction l with
  | nil =>
    have hp : (p.2 == k) = false := by simpa using hk
    simp [insertDesc, hp]
  | cons q t ih =>
    rw [insertDesc]
    split
    · simp [List.filter_cons, ih]
    · have hp : (p.2 == k) = false := by simpa using hk
      simp [List.filter_cons, hp]

/-- Filtering on the inserted pair's count puts it first: the entries the
insertion walked past all have strictly larger counts. -/
theorem filter_insertDesc_eq {α : Type} (p : α × Nat) (l : List (α × Nat)) :
    (insertDesc p l).filter (fun q => q.2 == p.2) =
      p :: l.filter (fun q => q.2 == p.2) := by
  induction l with
  | nil => simp [insertDesc]
  | cons q t ih =>
    rw [insertDesc]
    split
    · rename_i hlt
      have hq : (q.2 == p.2) = false := by
        simp only [beq_eq_false_iff_ne, ne_eq]
        omega
      simp [List.filter_cons, hq, ih]
    · simp [List.filter_cons]

/-- Stability of the sort: for each count value, the entries with that
count keep their input order. -/
theorem filter_sortDescCount {α : Type} (l : List (α × Nat)) (k : Nat) :
    (sortDescCount l).filter (fun q => q.2 == k) =
      l.filter (fun q => q.2 == k) := by
  induction l with
  | nil => rfl
  | cons p t ih =>
    show (insertDesc p (sortDescCount t)).filter _ = _
    by_cases hk : p.2 = k
    · subst hk
      rw [filter_insertDesc_eq, ih]
      simp [List.filter_cons]
    · rw [filter_insertDesc_ne p _ k hk, ih, List.filter_cons]
      have hp : (p.2 == k) = false := by simpa using hk
      simp [hp]

/-- uniqueOrder preserves membership. -/
theorem mem_uniqueOrder {α : Type} [DecidableEq α] (a : α) (l : List α) :
    a ∈ uniqueOrder l ↔ a ∈ l := by
  induction l with
  | nil => simp [uniqueOrder]
  | cons c t ih =>
    rw [uniqueOrder]
    rcases eq_or_ne a c with rfl | hne
    · simp
    · simp [List.mem_filter, hne, ih]

/-- uniqueOrder has no duplicates. -/
theorem nodup_uniqueOrder {α : Type} [DecidableEq α] (l : List α) :
    (uniqueOrder l).Nodup := by
  induction l with
  | nil => simp [uniqueOrder]
  | cons c t ih =>
    rw [uniqueOrder]
    refine List.nodup_cons.mpr ⟨?_, ih.filter _⟩
    intro hc
    rcases List.mem_filter.mp hc with ⟨_, hne⟩
    simp at hne

/-- uniqueOrder lists values in strictly increasing first-occurrence
order: it is exactly the first-encountered enumeration of the distinct
values. -/
theorem pairwise_firstIdx_uniqueOrder {α : Type} [DecidableEq α]
    (l : List α) :
    (uniqueOrder l).Pairwise (fun a b => firstIdx l a < firstIdx l b) := by
  induction l with
  | nil => simp [uniqueOrder]
  | cons c t ih =>
    rw [uniqueOrder]
    refine List.pairwise_cons.mpr ⟨?_, ?_⟩
    · intro b hb
      rcases List.mem_filter.mp hb with ⟨_, hbne⟩
      have hb2 : b ≠ c := by simpa using hbne
      rw [firstIdx, firstIdx, List.findIdx_cons, List.findIdx_cons]
      have h1 : (decide (c = c)) = true := by simp
      have h2 : (decide (c = b)) = false := by simp [Ne.symm hb2]
      rw [h1, h2]
      simp
    · have hsub : List.Sublist ((uniqueOrder t).filter (fun x => x ≠ c))
          (uniqueOrder t) := List.filter_sublist _
      refine (List.Pairwise.sublist hsub ih).imp_of_mem ?_
      intro a b ha hb hab
      have ha2 : a ≠ c := by simpa using (List.mem_filter.mp ha).2
      have hb2 : b ≠ c := by simpa using (List.mem_filter.mp hb).2
      rw [firstIdx, firstIdx, List.findIdx_cons, List.findIdx_cons]
      have h1 : (decide (c = a)) = false := by simp [Ne.symm ha2]
      have h2 : (decide (c = b)) = false := by simp [Ne.symm hb2]
      rw [h1, h2]
      simpa using Nat.succ_lt_succ hab

/-- Claim C4: categorical_summary returns the 10 most frequent distinct
non-null values by descending count (stable tie-break in
first-encountered order), stringified, with the total distinct count:
the top fields read off the sorted count table, whose counts descend,
equal the occurrence counts, cover each distinct value once, keep
first-encountered order among equal counts, and dominate every entry
beyond the tenth; uniqueOrder is the nodup first-occurrence enumeration. -/
theorem categorical_summary_spec (s : Series) :
    (categorical_summary 10 s).top_values =
      ((value_counts (dropNA s.data)).take 10).map (fun p => cellStr p.1) ∧
    (categorical_summary 10 s).top_counts =
      ((value_counts (dropNA s.data)).take 10).map (fun p => p.2) ∧
    (categorical_summary 10 s).unique = nuniqueL (dropNA s.data) ∧
    ((value_counts (dropNA s.data)).map (fun p => p.2)).Pairwise
      (fun a b => b ≤ a) ∧
    (∀ p ∈ value_counts (dropNA s.data),
      p.2 = (dropNA s.data).count p.1) ∧
    ((value_counts (dropNA s.data)).map (fun p => p.1)).Perm
      (uniqueOrder (dropNA s.data)) ∧
    (∀ k, ((value_counts (dropNA s.data)).filter
        (fun p => p.2 == k)).map (fun p => p.1) =
      (uniqueOrder (dropNA s.data)).filter
        (fun v => (dropNA s.data).count v == k)) ∧
    (∀ p ∈ (value_counts (dropNA s.data)).drop 10,
      ∀ q ∈ (value_counts (dropNA s.data)).take 10, p.2 ≤ q.2) ∧
    (uniqueOrder (dropNA s.data)).Nodup ∧
    (∀ v, v ∈ uniqueOrder (dropNA s.data) ↔ v ∈ dropNA s.data) ∧
    (uniqueOrder (dropNA s.data)).Pairwise
      (fun a b => firstIdx (dropNA s.data) a < firstIdx (dropNA s.data) b) := by
  refine ⟨rfl, rfl, rfl, ?_, ?_, ?_, ?_, ?_, nodup_uniqueOrder _,
    fun v => mem_uniqueOrder v _, pairwise_firstIdx_uniqueOrder _⟩
  · exact List.pairwise_map.mpr (pairwise_sortDescCount _)
  · intro p hp
    have hp2 : p ∈ (uniqueOrder (dropNA s.data)).map
        (fun v => (v, (dropNA s.data).count v)) :=
      (sortDescCount_perm _).subset hp
    rcases List.mem_map.mp hp2 with ⟨v, _, rfl⟩
    rfl
  · have h1 := (sortDescCount_perm ((uniqueOrder (dropNA s.data)).map
      (fun v => (v, (dropNA s.data).count v)))).map (fun p : Cell × Nat => p.1)
    simpa [value_counts, List.map_map, Function.comp_def] using h1
  · intro k
    rw [value_counts, filter_sortDescCount, List.filter_map]
    simp [List.map_map, Function.comp_def]
  · intro p hp q hq
    have hpw : (value_counts (dropNA s.data)).Pairwise
        (fun a b => b.2 ≤ a.2) := pairwise_sortDescCount _
    have hsplit := List.take_append_drop 10 (value_counts (dropNA s.data))
    rw [← hsplit] at hpw
    rcases List.pairwise_append.mp hpw with ⟨_, _, hcross⟩
    exact hcross q hq p hp

/-- infer_column_type only produces the seven enumerated type names. -/
theorem infer_column_type_mem (pdate : String → Bool) (s : Series) :
    infer_column_type pdate s ∈
      ["numeric", "categorical", "datetime", "id", "text", "boolean",
        "unknown"] := by
  rw [infer_column_type]
  split_ifs <;> simp only [List.mem_cons, List.mem_singleton, List.not_mem_nil]
  all_goals (try split_ifs)
  all_goals simp

/-- Claim C5: profile_dataset profiles each column with the caller's
override looked up by name; an override from the enumerated type set wins
over the inferred type and drives the summary dispatch (forcing
"categorical" routes through categorical_summary); with no override the
effective type is the inferred type. -/
theorem profile_override_spec (pdate : String → Bool)
    (pnum : String → Option ℚ) (pdt : Cell → Option ℤ) (df : DataFrame)
    (overrides : List (String × String)) (name : String) (s : Series)
    (o : String)
    (hvalid : o ∈ ["numeric", "categorical", "datetime", "id", "text",
      "boolean"]) :
    ((profile_dataset pdate pnum pdt df overrides).columns =
      df.map (fun p =>
        (p.1, profileColumn pdate pnum pdt (List.lookup p.1 overrides)
          p.1 p.2))) ∧
    (profileColumn pdate pnum pdt (some o) name s).effective_type = o ∧
    (o = "categorical" →
      (profileColumn pdate pnum pdt (some o) name s).categorical_summary =
        some (categorical_summary 10 s)) ∧
    (profileColumn pdate pnum pdt none name s).effective_type =
      infer_column_type pdate s := by
  have ho : ¬ o = "" := by
    fin_cases hvalid <;> decide
  refine ⟨rfl, ?_, ?_, rfl⟩
  · show (if o = "" then _ else o) = o
    rw [if_neg ho]
  · intro hco
    subst hco
    simp [profileColumn]

/-- Witness for profile_override_spec: forcing "categorical" onto a
numeric column keeps the override as effective type. -/
theorem profile_override_spec_witness :
    (profileColumn (fun _ => false) (fun _ => none) (fun _ => none)
      (some "categorical") "a"
      ⟨Dtype.numericD, [Cell.num 1, Cell.num 2]⟩).effective_type =
      "categorical" :=
  (profile_override_spec (fun _ => false) (fun _ => none) (fun _ => none)
    [] [] "a" ⟨Dtype.numericD, [Cell.num 1, Cell.num 2]⟩ "categorical"
    (by decide)).2.1

/-- Claim C6: each column profile carries exactly the summary variant
matching its effective type (numeric / categorical-or-boolean / datetime;
id, text and unknown carry none), and plot_suggested holds exactly when
the effective type is neither id nor text. -/
theorem profileColumn_invariant (pdate : String → Bool)
    (pnum : String → Option ℚ) (pdt : Cell → Option ℤ)
    (ov : Option String) (name : String) (s : Series)
    (hov : ov = none ∨ ∃ o, ov = some o ∧
      o ∈ ["numeric", "categorical", "datetime", "id", "text", "boolean"]) :
    ((profileColumn pdate pnum pdt ov name s).effective_type ∈
      ["numeric", "categorical", "datetime", "id", "text", "boolean",
        "unknown"]) ∧
    ((profileColumn pdate pnum pdt ov name s).numeric_summary.isSome =
      ((profileColumn pdate pnum pdt ov name s).effective_type ==
        "numeric")) ∧
    ((profileColumn pdate pnum pdt ov name s).categorical_summary.isSome =
      (((profileColumn pdate pnum pdt ov name s).effective_type ==
          "categorical") ||
        ((profileColumn pdate pnum pdt ov name s).effective_type ==
          "boolean"))) ∧
    ((profileColumn pdate pnum pdt ov name s).datetime_summary.isSome =
      ((profileColumn pdate pnum pdt ov name s).effective_type ==
        "datetime")) ∧
    ((profileColumn pdate pnum pdt ov name s).plot_suggested =
      (!((profileColumn pdate pnum pdt ov name s).effective_type == "id") &&
       !((profileColumn pdate pnum pdt ov name s).effective_type ==
          "text"))) := by
  refine ⟨?_, ?_, ?_, ?_, ?_⟩
  · rcases hov with rfl | ⟨o, rfl, hoin⟩
    · exact infer_column_type_mem pdate s
    · show (if o = "" then _ else o) ∈ _
      have ho : ¬ o = "" := by
        fin_cases hoin <;> decide
      rw [if_neg ho]
      fin_cases hoin <;> decide
  · have he : (profileColumn pdate pnum pdt ov name s).numeric_summary =
        (if (profileColumn pdate pnum pdt ov name s).effective_type =
            "numeric"
         then some (numeric_summary ((to_numeric pnum s).data))
         else none) := rfl
    rw [he]
    by_cases h : (profileColumn pdate pnum pdt ov name s).effective_type =
        "numeric" <;> simp [h]
  · have he : (profileColumn pdate pnum pdt ov name s).categorical_summary =
        (if (profileColumn pdate pnum pdt ov name s).effective_type =
              "categorical" ∨
            (profileColumn pdate pnum pdt ov name s).effective_type =
              "boolean"
         then some (categorical_summary 10 s)
         else none) := rfl
    rw [he]
    by_cases h : (profileColumn pdate pnum pdt ov name s).effective_type =
          "categorical" ∨
        (profileColumn pdate pnum pdt ov name s).effective_type =
          "boolean"
    · rcases h with h | h <;> simp [h]
    · push_neg at h
      simp [h.1, h.2]
  · have he : (profileColumn pdate pnum pdt ov name s).datetime_summary =
        (if (profileColumn pdate pnum pdt ov name s).effective_type =
            "datetime"
         then some (datetime_summary pdt s)
         else none) := rfl
    rw [he]
    by_cases h : (profileColumn pdate pnum pdt ov name s).effective_type =
        "datetime" <;> simp [h]
  · have he : (profileColumn pdate pnum pdt ov name s).plot_suggested =
        (!((profileColumn pdate pnum pdt ov name s).effective_type ==
            "id" ||
          (profileColumn pdate pnum pdt ov name s).effective_type ==
            "text")) := rfl
    rw [he, Bool.not_or]

/-- Witness for profileColumn_invariant at a concrete numeric column with
no override. -/
theorem profileColumn_invariant_witness :
    (profileColumn (fun _ => false) (fun _ => none) (fun _ => none) none
      "a" ⟨Dtype.numericD, [Cell.num 1, Cell.num 2]⟩).plot_suggested =
      (!((profileColumn (fun _ => false) (fun _ => none) (fun _ => none)
          none "a"
          ⟨Dtype.numericD, [Cell.num 1, Cell.num 2]⟩).effective_type ==
          "id") &&
       !((profileColumn (fun _ => false) (fun _ => none) (fun _ => none)
          none "a"
          ⟨Dtype.numericD, [Cell.num 1, Cell.num 2]⟩).effective_type ==
          "text")) :=
  (profileColumn_invariant (fun _ => false) (fun _ => none) (fun _ => none)
    none "a" ⟨Dtype.numericD, [Cell.num 1, Cell.num 2]⟩
    (Or.inl rfl)).2.2.2.2

/-- Claim C7: build_preprocessor routes every feature column by override
("numeric" to the numeric role; "categorical"/"boolean" to the
categorical role; "id"/"text"/"datetime" excluded from modeling), falls
back to the storage dtype for a missing or malformed override, and
returns a feature frame in which every numeric-role column is coerced by
pd.to_numeric with unparsable entries becoming missing. -/
theorem build_preprocessor_routing (pnum : String → Option ℚ)
    (df : DataFrame) (t : String) (ovs : List (String × String))
    (ht : t ∈ colNames df) :
    ∃ X y nf cf,
      build_preprocessor pnum df t ovs = Except.ok (X, y, nf, cf) ∧
      (∀ col, col ∈ colNames df → col ≠ t →
        ((List.lookup col ovs = some "numeric" → col ∈ nf ∧ col ∉ cf) ∧
         ((List.lookup col ovs = some "categorical" ∨
             List.lookup col ovs = some "boolean") →
           col ∈ cf ∧ col ∉ nf) ∧
         ((List.lookup col ovs = some "id" ∨
             List.lookup col ovs = some "text" ∨
             List.lookup col ovs = some "datetime") →
           col ∉ nf ∧ col ∉ cf) ∧
         ((∀ o, List.lookup col ovs = some o →
             o ∉ ["numeric", "categorical", "boolean", "id", "text",
               "datetime"]) →
           (isNumericColD df col = true → col ∈ nf ∧ col ∉ cf) ∧
           (isNumericColD df col = false → col ∈ cf ∧ col ∉ nf)))) ∧
      (X = (df.filter (fun p => p.1 ≠ t)).map (fun p =>
        if p.1 ∈ nf then (p.1, to_numeric pnum p.2) else p)) ∧
      (∀ v, pnum v = none → toNumericCell pnum (Cell.str v) = Cell.na) ∧
      (∀ name s, (name, s) ∈ df → name ∈ nf →
        (name, to_numeric pnum s) ∈ X) := by
  rw [build_preprocessor, if_pos ht]
  refine ⟨_, _, _, _, rfl, ?_, rfl, ?_, ?_⟩
  · intro col hcol hct
    have hfc : col ∈ (colNames df).filter (fun c => c ≠ t) :=
      List.mem_filter.mpr ⟨hcol, by simp [hct]⟩
    have hin : ∀ r, roleOf df ovs col = r →
        (r = Role.numericR →
          col ∈ ((colNames df).filter (fun c => c ≠ t)).filter
            (fun c => roleOf df ovs c == Role.numericR)) ∧
        (r ≠ Role.numericR →
          col ∉ ((colNames df).filter (fun c => c ≠ t)).filter
            (fun c => roleOf df ovs c == Role.numericR)) ∧
        (r = Role.categoricalR →
          col ∈ ((colNames df).filter (fun c => c ≠ t)).filter
            (fun c => roleOf df ovs c == Role.categoricalR)) ∧
        (r ≠ Role.categoricalR →
          col ∉ ((colNames df).filter (fun c => c ≠ t)).filter
            (fun c => roleOf df ovs c == Role.categoricalR)) := by
      intro r hr
      refine ⟨?_, ?_, ?_, ?_⟩
      · rintro rfl
        exact List.mem_filter.mpr ⟨hfc, by simp [hr]⟩
      · intro hne hc
        exact hne (by simpa [hr] using (List.mem_filter.mp hc).2)
      · rintro rfl
        exact List.mem_filter.mpr ⟨hfc, by simp [hr]⟩
      · intro hne hc
        exact hne (by simpa [hr] using (List.mem_filter.mp hc).2)
    refine ⟨?_, ?_, ?_, ?_⟩
    · intro h
      have hr : roleOf df ovs col = Role.numericR := by simp [roleOf, h]
      exact ⟨((hin _ hr).1 rfl), ((hin _ hr).2.2.2 (by decide))⟩
    · intro h
      have hr : roleOf df ovs col = Role.categoricalR := by
        rcases h with h | h <;> simp [roleOf, h]
      exact ⟨((hin _ hr).2.2.1 rfl), ((hin _ hr).2.1 (by decide))⟩
    · intro h
      have hr : roleOf df ovs col = Role.excludedR := by
        rcases h with h | h | h <;> simp [roleOf, h]
      exact ⟨((hin _ hr).2.1 (by decide)), ((hin _ hr).2.2.2 (by decide))⟩
    · intro hfall
      have hcond : roleOf df ovs col =
          (if isNumericColD df col then Role.numericR
           else Role.categoricalR) := by
        rcases hlk : List.lookup col ovs with _ | o
        · simp [roleOf, hlk]
        · have hno := hfall o hlk
          simp only [List.mem_cons, List.not_mem_nil, or_false, not_or] at hno
          obtain ⟨n1, n2, n3, n4, n5, n6⟩ := hno
          simp [roleOf, hlk, n1, n2, n3, n4, n5, n6]
      constructor
      · intro hnum
        rw [hnum, if_pos rfl] at hcond
        exact ⟨((hin _ hcond).1 rfl), ((hin _ hcond).2.2.2 (by decide))⟩
      · intro hnum
        rw [hnum] at hcond
        simp only [Bool.false_eq_true, if_false] at hcond
        exact ⟨((hin _ hcond).2.2.1 rfl), ((hin _ hcond).2.1 (by decide))⟩
  · intro v hv
    simp [toNumericCell, hv]
  · intro name s hmem hnf
    have hname : name ≠ t := by
      have := (List.mem_filter.mp (List.mem_filter.mp hnf).1).2
      simpa using this
    refine List.mem_map.mpr ⟨(name, s), List.mem_filter.mpr ⟨hmem, ?_⟩, ?_⟩
    · simpa using hname
    · rw [if_pos hnf]

/-- Witness for build_preprocessor_routing at a two-column frame with a
"categorical" override on a numeric feature. -/
theorem build_preprocessor_routing_witness :
    ∃ X y nf cf,
      build_preprocessor (fun _ => none)
        [("f", ⟨Dtype.numericD, [Cell.num 1]⟩),
         ("y", ⟨Dtype.numericD, [Cell.num 2]⟩)]
        "y" [("f", "categorical")] = Except.ok (X, y, nf, cf) ∧
      (∀ col, col ∈ colNames
          [("f", ⟨Dtype.numericD, [Cell.num 1]⟩),
           ("y", ⟨Dtype.numericD, [Cell.num 2]⟩)] → col ≠ "y" →
        ((List.lookup col [("f", "categorical")] = some "numeric" →
          col ∈ nf ∧ col ∉ cf) ∧
         ((List.lookup col [("f", "categorical")] = some "categorical" ∨
             List.lookup col [("f", "categorical")] = some "boolean") →
           col ∈ cf ∧ col ∉ nf) ∧
         ((List.lookup col [("f", "categorical")] = some "id" ∨
             List.lookup col [("f", "categorical")] = some "text" ∨
             List.lookup col [("f", "categorical")] = some "datetime") →
           col ∉ nf ∧ col ∉ cf) ∧
         ((∀ o, List.lookup col [("f", "categorical")] = some o →
             o ∉ ["numeric", "categorical", "boolean", "id", "text",
               "datetime"]) →
           (isNumericColD
              [("f", ⟨Dtype.numericD, [Cell.num 1]⟩),
               ("y", ⟨Dtype.numericD, [Cell.num 2]⟩)] col = true →
             col ∈ nf ∧ col ∉ cf) ∧
           (isNumericColD
              [("f", ⟨Dtype.numericD, [Cell.num 1]⟩),
               ("y", ⟨Dtype.numericD, [Cell.num 2]⟩)] col = false →
             col ∈ cf ∧ col ∉ nf)))) ∧
      (X = ([("f", ⟨Dtype.numericD, [Cell.num 1]⟩),
             ("y", ⟨Dtype.numericD, [Cell.num 2]⟩)].filter
              (fun p => p.1 ≠ "y")).map (fun p =>
        if p.1 ∈ nf then (p.1, to_numeric (fun _ => none) p.2) else p)) ∧
      (∀ v, (fun _ => none : String → Option ℚ) v = none →
        toNumericCell (fun _ => none) (Cell.str v) = Cell.na) ∧
      (∀ name s,
        (name, s) ∈ [("f", ⟨Dtype.numericD, [Cell.num 1]⟩),
          ("y", ⟨Dtype.numericD, [Cell.num 2]⟩)] → name ∈ nf →
        (name, to_numeric (fun _ => none) s) ∈ X) :=
  build_preprocessor_routing (fun _ => none)
    [("f", ⟨Dtype.numericD, [Cell.num 1]⟩),
     ("y", ⟨Dtype.numericD, [Cell.num 2]⟩)]
    "y" [("f", "categorical")] (by decide)

/-- A fold of writes through a fixed reference leaves a heap slot it
never touches unchanged. -/
theorem foldl_preserve_frames (g : Heap → String → Heap) (i : Nat)
    (hg : ∀ hh c, ((g hh c).frames)[i]? = hh.frames[i]?) :
    ∀ (l : List String) (hh : Heap),
      ((l.foldl g hh).frames)[i]? = hh.frames[i]? := by
  intro l
  induction l with
  | nil => intro hh; rfl
  | cons c cs ih =>
    intro hh
    rw [List.foldl_cons, ih, hg]

/-- Claim C9: build_preprocessor never mutates the caller-owned table:
every frame reference that existed before the call (in particular the
input frame, all its cells and dtypes) dereferences to the same value
afterwards; drop and copy allocate fresh frames and the numeric coercion
writes only to the fresh copy. -/
theorem build_preprocessor_no_mutation (pnum : String → Option ℚ)
    (h : Heap) (r : Nat) (t : String) (ovs : List (String × String))
    (i : Nat) (hi : i < h.frames.length) :
    ((heapAfter pnum h r t ovs).frames)[i]? = h.frames[i]? := by
  rw [heapAfter, build_preprocessor_st]
  by_cases hc : t ∈ colNames (readF h r)
  · rw [if_pos hc]
    show (((((colNames (readF h r)).filter (fun c => c ≠ t)).filter
        (fun c => roleOf (readF h r) ovs c == Role.numericR)).foldl
        (fun hh c => writeColH hh (h.frames ++ [dropCol (readF h r) t]).length c
          (to_numeric pnum ((List.lookup c
            (readF hh (h.frames ++ [dropCol (readF h r) t]).length)).getD
            ⟨Dtype.otherD, []⟩)))
        ⟨(h.frames ++ [dropCol (readF h r) t]) ++
          [readF ⟨h.frames ++ [dropCol (readF h r) t]⟩ h.frames.length]⟩).frames)[i]?
      = h.frames[i]?
    refine (foldl_preserve_frames _ i ?_ _ _).trans ?_
    · intro hh c
      show (hh.frames.set (h.frames ++ [dropCol (readF h r) t]).length _)[i]? =
        hh.frames[i]?
      refine List.getElem?_set_ne ?_
      rw [List.length_append]
      simp
      omega
    · show ((h.frames ++ [dropCol (readF h r) t]) ++
        [readF ⟨h.frames ++ [dropCol (readF h r) t]⟩ h.frames.length])[i]? =
        h.frames[i]?
      rw [List.getElem?_append_left (by rw [List.length_append]; simp; omega),
        List.getElem?_append_left hi]
  · rw [if_neg hc]

/-- Witness for build_preprocessor_no_mutation: a one-frame heap keeps its
frame intact through the call. -/
theorem build_preprocessor_no_mutation_witness :
    ((heapAfter (fun _ => none)
      ⟨[[("a", ⟨Dtype.numericD, [Cell.num 1]⟩),
         ("b", ⟨Dtype.numericD, [Cell.num 2]⟩)]]⟩ 0 "b" []).frames)[0]? =
    (⟨[[("a", ⟨Dtype.numericD, [Cell.num 1]⟩),
        ("b", ⟨Dtype.numericD, [Cell.num 2]⟩)]]⟩ : Heap).frames[0]? :=
  build_preprocessor_no_mutation (fun _ => none)
    ⟨[[("a", ⟨Dtype.numericD, [Cell.num 1]⟩),
       ("b", ⟨Dtype.numericD, [Cell.num 2]⟩)]]⟩ 0 "b" [] 0 (by decide)

/-- The selection loop either keeps its carried-in best (when no score
beats the running best) or returns the first candidate attaining the
maximal score, which strictly beats the initial best. -/
theorem selectLoop_spec (l : List (String × ℚ)) :
    ∀ (best : Option String) (b : ℚ),
      (selectLoop l best b = (best, b) ∧ ∀ p ∈ l, p.2 ≤ b) ∨
      (∃ n i s, (selectLoop l best b).1 = some n ∧
        (selectLoop l best b).2 = s ∧ l[i]? = some (n, s) ∧ b < s ∧
        (∀ p ∈ l, p.2 ≤ s) ∧
        (∀ (j : Nat) (q : String × ℚ), j < i → l[j]? = some q →
          q.2 < s)) := by
  induction l with
  | nil =>
    intro best b
    left
    exact ⟨rfl, by simp⟩
  | cons p rest ih =>
    intro best b
    obtain ⟨name, score⟩ := p
    rw [selectLoop]
    by_cases hgt : score > b
    · rw [if_pos hgt]
      rcases ih (some name) score with ⟨heq, hle⟩ |
        ⟨n, i, s, h1, h2, h3, h4, h5, h6⟩
      · right
        refine ⟨name, 0, score, by rw [heq], by rw [heq], by simp, hgt,
          ?_, ?_⟩
        · intro q hq
          rcases List.mem_cons.mp hq with rfl | hq
          · exact le_refl _
          · exact hle q hq
        · intro j q hj _
          exact absurd hj (Nat.not_lt_zero j)
      · right
        refine ⟨n, i + 1, s, h1, h2, by simpa using h3,
          lt_trans hgt h4, ?_, ?_⟩
        · intro q hq
          rcases List.mem_cons.mp hq with rfl | hq
          · exact le_of_lt h4
          · exact h5 q hq
        · intro j q hj hq
          cases j with
          | zero =>
            have hq2 : q = (name, score) := by simpa using hq.symm
            rw [hq2]
            exact h4
          | succ k =>
            exact h6 k q (Nat.lt_of_succ_lt_succ hj) (by simpa using hq)
    · rw [if_neg hgt]
      push_neg at hgt
      rcases ih best b with ⟨heq, hle⟩ | ⟨n, i, s, h1, h2, h3, h4, h5, h6⟩
      · left
        refine ⟨heq, ?_⟩
        intro q hq
        rcases List.mem_cons.mp hq with rfl | hq
        · exact hgt
        · exact hle q hq
      · right
        refine ⟨n, i + 1, s, h1, h2, by simpa using h3, h4, ?_, ?_⟩
        · intro q hq
          rcases List.mem_cons.mp hq with rfl | hq
          · exact le_of_lt (lt_of_le_of_lt hgt h4)
          · exact h5 q hq
        · intro j q hj hq
          cases j with
          | zero =>
            have hq2 : q = (name, score) := by simpa using hq.symm
            rw [hq2]
            exact lt_of_le_of_lt hgt h4
          | succ k =>
            exact h6 k q (Nat.lt_of_succ_lt_succ hj) (by simpa using hq)

/-- Claim C8: when run_baseline_models selects a winner it is the
candidate of maximal score in fixed roster order (every candidate scores
no higher, every earlier candidate scores strictly lower, so ties keep
the first-encountered candidate), where the classification score is
macro-F1 and the regression score is negative RMSE. -/
theorem run_baseline_selection_spec (task_type : String)
    (cands : List (String × List (String × ℚ))) (n : String)
    (hok : run_model_selection task_type cands = Except.ok n) :
    ∃ i s,
      (cands.map (fun p => (p.1, candScore task_type p.2)))[i]? =
        some (n, s) ∧
      (∀ p ∈ cands.map (fun p => (p.1, candScore task_type p.2)),
        p.2 ≤ s) ∧
      (∀ (j : Nat) (q : String × ℚ), j < i →
        (cands.map (fun p => (p.1, candScore task_type p.2)))[j]? =
          some q → q.2 < s) ∧
      (∀ m q, List.lookup "f1_macro" m = some q →
        candScore "classification" m = q) ∧
      (∀ m q, List.lookup "rmse" m = some q →
        candScore "regression" m = -q) := by
  rcases selectLoop_spec (cands.map fun p => (p.1, candScore task_type p.2))
      none (-1000000000) with ⟨heq, _⟩ | ⟨n2, i, s, h1, _, h3, _, h5, h6⟩
  · rw [run_model_selection, heq] at hok
    simp at hok
  · rw [run_model_selection, h1] at hok
    have hn : n2 = n := by
      simpa using hok
    subst hn
    refine ⟨i, s, h3, h5, h6, ?_, ?_⟩
    · intro m q hm
      simp [candScore, hm]
    · intro m q hm
      simp [candScore, hm]

/-- Witness for run_baseline_selection_spec: a two-candidate
classification roster with tied scores keeps the first candidate. -/
theorem run_baseline_selection_spec_witness :
    ∃ i s,
      ([("logreg", [("f1_macro", (1 : ℚ))]),
        ("rf", [("f1_macro", (1 : ℚ))])].map
        (fun p => (p.1, candScore "classification" p.2)))[i]? =
        some ("logreg", s) ∧
      (∀ p ∈ [("logreg", [("f1_macro", (1 : ℚ))]),
          ("rf", [("f1_macro", (1 : ℚ))])].map
          (fun p => (p.1, candScore "classification" p.2)), p.2 ≤ s) ∧
      (∀ (j : Nat) (q : String × ℚ), j < i →
        ([("logreg", [("f1_macro", (1 : ℚ))]),
          ("rf", [("f1_macro", (1 : ℚ))])].map
          (fun p => (p.1, candScore "classification" p.2)))[j]? =
          some q → q.2 < s) ∧
      (∀ m q, List.lookup "f1_macro" m = some q →
        candScore "classification" m = q) ∧
      (∀ m q, List.lookup "rmse" m = some q →
        candScore "regression" m = -q) :=
  run_baseline_selection_spec "classification"
    [("logreg", [("f1_macro", (1 : ℚ))]), ("rf", [("f1_macro", (1 : ℚ))])]
    "logreg" (by rfl)

/-- Claim C10: run_baseline_models starts from best_score = -1e9 and
adopts only on a strictly greater score, so a regression run in which
every candidate's RMSE is at least 1e9 selects no winner and errors even
though every candidate was fitted and scored. -/
theorem run_baseline_no_winner
    (cands : List (String × List (String × ℚ)))
    (hbig : ∀ c ∈ cands, ∃ r, List.lookup "rmse" c.2 = some r ∧
      r ≥ 1000000000) :
    run_model_selection "regression" cands =
      Except.error "No best model was selected. This should not happen." := by
  have hall : ∀ p ∈ cands.map (fun p => (p.1, candScore "regression" p.2)),
      p.2 ≤ -1000000000 := by
    intro p hp
    rcases List.mem_map.mp hp with ⟨c, hc, rfl⟩
    rcases hbig c hc with ⟨q, hq, hge⟩
    show candScore "regression" c.2 ≤ _
    rw [candScore, if_neg (by decide), hq]
    simp only [Option.getD_some]
    linarith
  rcases selectLoop_spec (cands.map fun p => (p.1, candScore "regression" p.2))
      none (-1000000000) with ⟨heq, _⟩ | ⟨n, i, s, _, _, h3, h4, _, _⟩
  · rw [run_model_selection, heq]
  · have hmem := List.getElem?_mem h3
    have := hall _ hmem
    exact absurd h4 (not_lt.mpr this)

/-- Witness for run_baseline_no_winner: one regression candidate whose
RMSE is exactly 1e9 yields the RuntimeError path. -/
theorem run_baseline_no_winner_witness :
    run_model_selection "regression" [("linreg", [("rmse", (1000000000 : ℚ))])] =
      Except.error "No best model was selected. This should not happen." :=
  run_baseline_no_winner [("linreg", [("rmse", (1000000000 : ℚ))])]
    (by
      intro c hc
      simp only [List.mem_singleton] at hc
      subst hc
      exact ⟨1000000000, by decide, by norm_num⟩)

end ClaimProofs

end AutoAnalyst
